import Mathlib

/-!
Shallow embedding of the trading core of the `traderbot` repository:
`src/services/signalGenerator.js`, `src/services/automatedTrader.js`, and the
interval validation of `src/routes/automation.js`.

Modelling conventions:
* JavaScript numbers are modelled as rationals (the arithmetic the claims are
  about is exact decimal arithmetic).
* `Math.sin` is a transcendental float routine; it is passed in as an abstract
  function parameter `msin : Rat -> Rat`.  No claim depends on its values: the
  determinism claims quantify over it, and in counterexamples the noise terms
  cancel, so any instantiation works.
* Each `Math.random()` draw is an explicit rational argument in `[0,1)`.
* Wall-clock derived seeds (`Math.floor(Date.now() / bucket)`) are natural
  number arguments.
* The brokerage (Alpaca) network calls of `executeTradeFromSignal` are
  modelled by a `Gateway` oracle giving each call's outcome, and the side
  effects are returned as an explicit event trace, so that temporal ordering
  claims become statements about the trace.
-/

set_option allowUnsafeReducibility true in
attribute [semireducible] Rat.mul Rat.add Rat.inv Rat.sub Rat.div Rat.neg Rat.ofScientific

/-- The `signal` field values BUY / SELL / HOLD used throughout
`signalGenerator.js` and `automatedTrader.js`. -/
inductive TradeAction where
  | BUY
  | SELL
  | HOLD
  deriving DecidableEq, Repr

/-- Indicator record returned by `generateMockIndicators`
(signalGenerator.js lines 39-45). -/
structure Indicators where
  rsi : ℚ
  sma20 : ℚ
  sma50 : ℚ
  currentPrice : ℚ
  isMockData : Bool
  deriving DecidableEq, Repr

/-- Mutable configuration of the `SignalGenerator` class
(signalGenerator.js lines 4-8). -/
structure SignalGenerator where
  rsiOversold : ℚ
  rsiOverbought : ℚ
  minConfidence : ℚ
  deriving DecidableEq, Repr

/-- Constructor defaults of `SignalGenerator` (signalGenerator.js lines 5-7). -/
def signalGeneratorDefault : SignalGenerator :=
  { rsiOversold := 30, rsiOverbought := 70, minConfidence := 0.6 }

/-- The signal record built by `generateRSISignal` (signalGenerator.js lines
108-121).  The bookkeeping fields `reason` (a log string) and `timestamp`
(wall clock) are omitted; the claims do not mention them. -/
structure SignalResult where
  symbol : String
  signal : TradeAction
  confidence : ℚ
  indicators : Indicators
  shouldExecute : Bool
  deriving DecidableEq, Repr

/-- `symbol.split('').reduce((a, b) => a + b.charCodeAt(0), 0)`
(signalGenerator.js line 29 and line 81): the sum of the character codes. -/
def symbolHash (symbol : String) : ℕ :=
  symbol.toList.foldl (fun a b => a + b.toNat) 0

/-- `generateMockIndicators` (signalGenerator.js lines 26-46).
`timeBasedSeed` stands for `Math.floor(Date.now() / (1000 * 60 * 5))`;
`rand1` and `rand2` are the two `Math.random()` draws used for `sma20` and
`sma50`; `msin` stands for `Math.sin`. -/
def generateMockIndicators (msin : ℚ → ℚ) (timeBasedSeed : ℕ) (symbol : String)
    (rand1 rand2 : ℚ) : Indicators :=
  let seed : ℕ := (timeBasedSeed + symbolHash symbol) % 1000
  let rsi : ℚ := 20 + ((seed % 60 : ℕ) : ℚ) + msin ((seed : ℚ) * 0.1) * 10
  let basePrice : ℚ := 100 + ((seed % 100 : ℕ) : ℚ)
  let currentPrice : ℚ := basePrice + msin ((seed : ℚ) * 0.05) * 20
  { rsi := max 0 (min 100 rsi)
    sma20 := currentPrice + (rand1 - 0.5) * 10
    sma50 := currentPrice + (rand2 - 0.5) * 15
    currentPrice := currentPrice
    isMockData := true }

/-- `calculateBuyConfidence` (signalGenerator.js lines 144-160).  The
sequential `confidence += ...` updates are written as one sum. -/
def calculateBuyConfidence (g : SignalGenerator) (indicators : Indicators) : ℚ :=
  let rsiStrength : ℚ := (g.rsiOversold - indicators.rsi) / g.rsiOversold
  let confidence : ℚ := 0.6 + rsiStrength * 0.3
    + (if indicators.currentPrice > indicators.sma20 then 0.1 else 0)
    + (if indicators.sma20 > indicators.sma50 then 0.1 else 0)
  min confidence 1.0

/-- `calculateSellConfidence` (signalGenerator.js lines 167-183). -/
def calculateSellConfidence (g : SignalGenerator) (indicators : Indicators) : ℚ :=
  let rsiStrength : ℚ := (indicators.rsi - g.rsiOverbought) / (100 - g.rsiOverbought)
  let confidence : ℚ := 0.6 + rsiStrength * 0.3
    + (if indicators.currentPrice < indicators.sma20 then 0.1 else 0)
    + (if indicators.sma20 < indicators.sma50 then 0.1 else 0)
  min confidence 1.0

/-- Lines 61-97 of `generateRSISignal`: the base `(signal, confidence)` pair
before the moving-average adjustment.  `timeBasedSeed3` stands for
`Math.floor(Date.now() / (1000 * 60 * 3))` (line 80); `randomFactor` is
computed from it exactly as on line 82. -/
def baseSignalConf (g : SignalGenerator) (symbol : String) (indicators : Indicators)
    (timeBasedSeed3 : ℕ) : TradeAction × ℚ :=
  if indicators.rsi < g.rsiOversold then
    (TradeAction.BUY, calculateBuyConfidence g indicators)
  else if indicators.rsi > g.rsiOverbought then
    (TradeAction.SELL, calculateSellConfidence g indicators)
  else if indicators.isMockData then
    let randomFactor : ℚ := (((timeBasedSeed3 + symbolHash symbol) % 100 : ℕ) : ℚ) / 100
    if randomFactor < 0.25 then
      if randomFactor < 0.125 then
        (TradeAction.BUY, 0.5 + randomFactor * 0.3)
      else
        (TradeAction.SELL, 0.5 + (randomFactor - 0.125) * 2.4)
    else (TradeAction.HOLD, 0)
  else (TradeAction.HOLD, 0)

/-- Lines 99-106 of `generateRSISignal`: the moving-average confirmation that
adds a further `0.1` on top of the base confidence (note that for a BUY from
the RSI branch the `currentPrice > sma20` bonus was already added inside
`calculateBuyConfidence`; the code adds it again here). -/
def rawAdjConf (g : SignalGenerator) (symbol : String) (indicators : Indicators)
    (timeBasedSeed3 : ℕ) : ℚ :=
  let sc := baseSignalConf g symbol indicators timeBasedSeed3
  if sc.1 = TradeAction.BUY ∧ indicators.currentPrice > indicators.sma20 then
    sc.2 + 0.1
  else if sc.1 = TradeAction.SELL ∧ indicators.currentPrice < indicators.sma20 then
    sc.2 + 0.1
  else sc.2

/-- `generateRSISignal` (signalGenerator.js lines 53-137).  The result record
of lines 108-121: the stored `confidence` is `Math.min(confidence, 1.0)`
while `shouldExecute` compares the raw (uncapped) `confidence` variable with
`this.minConfidence`.  The catch-all error path (lines 126-136) cannot arise
in the pure embedding. -/
def generateRSISignal (g : SignalGenerator) (symbol : String) (indicators : Indicators)
    (timeBasedSeed3 : ℕ) : SignalResult :=
  { symbol := symbol
    signal := (baseSignalConf g symbol indicators timeBasedSeed3).1
    confidence := min (rawAdjConf g symbol indicators timeBasedSeed3) 1.0
    indicators := indicators
    shouldExecute := decide (rawAdjConf g symbol indicators timeBasedSeed3 ≥ g.minConfidence) }

/-- `getPositionSize` (signalGenerator.js lines 222-227):
`Math.max(1, Math.floor(confidence * maxPosition))`. -/
def getPositionSize (confidence : ℚ) (maxPosition : ℚ) : ℤ :=
  let baseSize : ℤ := ⌊confidence * maxPosition⌋
  max 1 baseSize

/-- State of the `AutomatedTrader` class (automatedTrader.js lines 6-12).
The timer handle stored in `this.tradingInterval` is modelled as a natural
number issued by `TimerSystem`. -/
structure AutomatedTrader where
  isRunning : Bool
  watchedSymbols : List String
  maxPositionSize : ℚ
  minConfidence : ℚ
  tradingInterval : Option ℕ
  deriving DecidableEq, Repr

/-- Constructor defaults of `AutomatedTrader` (automatedTrader.js lines 7-11). -/
def automatedTraderDefault : AutomatedTrader :=
  { isRunning := false
    watchedSymbols := ["AAPL", "MSFT", "GOOGL", "TSLA", "SPY"]
    maxPositionSize := 10
    minConfidence := 0.7
    tradingInterval := none }

/-- The process-wide set of armed `setInterval` timers: a list of
(handle, period in milliseconds) pairs plus a fresh-handle counter.
`setInterval` arms a new handle, `clearInterval` removes one. -/
structure TimerSystem where
  armed : List (ℕ × ℚ)
  next : ℕ
  deriving DecidableEq, Repr

/-- A process starts with no armed timers. -/
def timerSystemInit : TimerSystem := { armed := [], next := 0 }

/-- Observable steps taken by `startTrading`, in order. -/
inductive StartEvent where
  | warnAlreadyRunning
  | runCycle
  | armTimer (periodMs : ℚ)
  deriving DecidableEq, Repr

/-- `startTrading` (automatedTrader.js lines 19-42).  When already running it
warns and returns before touching any state (line 20-23).  Otherwise it
replaces the watchlist if symbols were provided (line 25-27), sets
`isRunning` (line 29), runs one cycle immediately (line 34, the `runCycle`
event), then arms a recurring timer with period
`intervalMinutes * 60 * 1000` milliseconds (lines 37-39) -- note the period
is used as given, with no range check or clamping. -/
def startTrading (t : AutomatedTrader) (ts : TimerSystem)
    (symbols : Option (List String)) (intervalMinutes : ℚ) :
    AutomatedTrader × TimerSystem × List StartEvent :=
  if t.isRunning then
    (t, ts, [StartEvent.warnAlreadyRunning])
  else
    let t1 := match symbols with
      | some s => { t with watchedSymbols := s }
      | none => t
    let period : ℚ := intervalMinutes * 60 * 1000
    ({ t1 with isRunning := true, tradingInterval := some ts.next },
     { armed := (ts.next, period) :: ts.armed, next := ts.next + 1 },
     [StartEvent.runCycle, StartEvent.armTimer period])

/-- `stopTrading` (automatedTrader.js lines 47-60): a no-op when not running;
otherwise clears `isRunning` and, if a timer handle is held, clears that
interval and drops the handle. -/
def stopTrading (t : AutomatedTrader) (ts : TimerSystem) :
    AutomatedTrader × TimerSystem :=
  if t.isRunning then
    match t.tradingInterval with
    | some h =>
        ({ t with isRunning := false, tradingInterval := none },
         { ts with armed := ts.armed.filter (fun p => p.1 != h) })
    | none => ({ t with isRunning := false }, ts)
  else (t, ts)

/-- The timer/state invariant of the trading loop: a timer handle is held
exactly while the loop is running, and the held handle is the single armed
timer of the process. -/
def TimerInv (t : AutomatedTrader) (ts : TimerSystem) : Prop :=
  match t.tradingInterval with
  | some h => t.isRunning = true ∧ ts.armed.map Prod.fst = [h]
  | none => t.isRunning = false ∧ ts.armed = []

/-- The filter predicate of `checkAndExecuteTrades`
(automatedTrader.js lines 73-77). -/
def executableFilter (t : AutomatedTrader) (s : SignalResult) : Bool :=
  s.shouldExecute && decide (s.confidence ≥ t.minConfidence)
    && decide (s.signal ≠ TradeAction.HOLD)

/-- The partial parameter record accepted by `updateParameters`; `none`
stands for a field absent from the request body. -/
structure TradingParams where
  symbols : Option (List String)
  maxPositionSize : Option ℚ
  minConfidence : Option ℚ
  deriving Repr

/-- `updateParameters` (automatedTrader.js lines 190-218).  Each guard is a
JavaScript truthiness test (`if (params.x)`), so a numeric field that is
provided but equal to `0` is treated like an absent field and leaves the
state untouched.  An array value is always truthy, so a provided symbol list
(even an empty one) always replaces the watchlist. -/
def updateParameters (t : AutomatedTrader) (params : TradingParams) : AutomatedTrader :=
  let t1 := match params.symbols with
    | some s => { t with watchedSymbols := s }
    | none => t
  let t2 := match params.maxPositionSize with
    | some x => if x != 0 then { t1 with maxPositionSize := x } else t1
    | none => t1
  match params.minConfidence with
  | some x => if x != 0 then { t2 with minConfidence := x } else t2
  | none => t2

/-- The express-validator rule on `intervalMinutes` in
POST /api/automation/start (automation.js line 55): an out-of-range value is
rejected with HTTP 400 and `startTrading` is never called; nothing is
clamped. -/
def startIntervalValid (intervalMinutes : ℤ) : Bool :=
  decide (1 ≤ intervalMinutes) && decide (intervalMinutes ≤ 1440)

/-- An open order as returned by the brokerage
(the fields `executeTradeFromSignal` reads). -/
structure Order where
  id : String
  symbol : String
  side : String
  deriving DecidableEq, Repr

/-- Oracle for the three brokerage calls made by `executeTradeFromSignal`:
the outcome of `GET /v2/orders` for the signal's symbol, the outcome of
`DELETE /v2/orders/:id` per order id, and the outcome of
`POST /v2/orders`. -/
structure Gateway where
  getOpenOrders : Except String (List Order)
  cancelOrder : String → Except String Unit
  placeOrder : Except String String

/-- Observable brokerage interactions of `executeTradeFromSignal`, in
program order. -/
inductive GwEvent where
  | getOrders (symbol : String)
  | cancelRequest (orderId : String) (ok : Bool)
  | settleDelay
  | submitOrder (symbol : String) (side : String) (qty : ℤ)
  deriving DecidableEq, Repr

/-- `signal.signal.toLowerCase()` (automatedTrader.js lines 117 and 138). -/
def sideOf : TradeAction → String
  | TradeAction.BUY => "buy"
  | TradeAction.SELL => "sell"
  | TradeAction.HOLD => "hold"

/-- Whether the DELETE for a given order id succeeds under the oracle. -/
def cancelOutcomeB (gw : Gateway) (oid : String) : Bool :=
  match gw.cancelOrder oid with
  | Except.ok _ => true
  | Except.error _ => false

/-- The cancellation loop of `executeTradeFromSignal`
(automatedTrader.js lines 123-130): each opposite-side order gets a DELETE;
a failure is caught inside the loop body (lines 127-129) and the loop
continues with the next order either way. -/
def cancelOppositeOrders (gw : Gateway) : List Order → List GwEvent
  | [] => []
  | o :: rest =>
      match gw.cancelOrder o.id with
      | Except.ok _ => GwEvent.cancelRequest o.id true :: cancelOppositeOrders gw rest
      | Except.error _ => GwEvent.cancelRequest o.id false :: cancelOppositeOrders gw rest

/-- The result record of `executeTradeFromSignal`.  On success the code
returns `success: true, orderId, signal, positionSize`
(automatedTrader.js lines 156-161); on failure it returns
`success: false, error, signal` -- the failure literal (lines 165-169) has
no `positionSize` key, which is why the failure constructor carries none. -/
inductive TradeResult where
  | success (orderId : String) (signal : SignalResult) (positionSize : ℤ)
  | failure (error : String) (signal : SignalResult)
  deriving DecidableEq, Repr

/-- Whether a returned result record carries a `positionSize` field. -/
def tradeResultHasPositionSize : TradeResult → Bool
  | TradeResult.success _ _ _ => true
  | TradeResult.failure _ _ => false

/-- `executeTradeFromSignal` (automatedTrader.js lines 104-171), returning
the result record together with the trace of brokerage interactions.
Control flow: compute the position size (line 106); fetch open orders for
the symbol (lines 111-113) -- a failure there is caught by the outer
try/catch (lines 163-170) and returned as a failure record; filter to
opposite-side orders (lines 116-118); cancel each of them best-effort
(lines 121-130); if any were present, wait a 1s settle delay (line 132);
build the order payload and POST it (lines 135-145); return the success
record, or the failure record if the POST threw. -/
def executeTradeFromSignal (gw : Gateway) (t : AutomatedTrader) (sig : SignalResult) :
    TradeResult × List GwEvent :=
  let positionSize := getPositionSize sig.confidence t.maxPositionSize
  match gw.getOpenOrders with
  | Except.error m => (TradeResult.failure m sig, [GwEvent.getOrders sig.symbol])
  | Except.ok existingOrders =>
      let oppositeSideOrders := existingOrders.filter (fun o => o.side != sideOf sig.signal)
      let cancelEvents := cancelOppositeOrders gw oppositeSideOrders
      let settleEvents := if oppositeSideOrders.length > 0 then [GwEvent.settleDelay] else []
      let submitEvent := GwEvent.submitOrder sig.symbol (sideOf sig.signal) positionSize
      let trace := GwEvent.getOrders sig.symbol :: cancelEvents ++ settleEvents ++ [submitEvent]
      match gw.placeOrder with
      | Except.ok orderId => (TradeResult.success orderId sig positionSize, trace)
      | Except.error m => (TradeResult.failure m sig, trace)

/-- A concrete instantiation of the abstract `Math.sin` parameter, used only
to state closed counterexamples; the facts proved about it are independent of
the instantiation (the sine noise terms cancel between two calls with the
same seed). -/
def msinZero : ℚ → ℚ := fun _ => 0

/-- The indicator record of the spec's worked example:
rsi 25, sma20 110, sma50 100, currentPrice 112. -/
def indScenario : Indicators :=
  { rsi := 25, sma20 := 110, sma50 := 100, currentPrice := 112, isMockData := true }

/-- A low-confidence BUY: rsi 29 just under the default oversold threshold
30, with no moving-average bonus. -/
def indLowBuy : Indicators :=
  { rsi := 29, sma20 := 100, sma50 := 100, currentPrice := 90, isMockData := true }

/-- A concrete executable BUY signal record, as `generateRSISignal` would
emit for the worked example (confidence 0.95, see the C2 theorems). -/
def sigBuyAAPL : SignalResult :=
  { symbol := "AAPL", signal := TradeAction.BUY, confidence := 0.95
    indicators := indScenario, shouldExecute := true }

/-- Open orders on AAPL: two open sells (opposite side for a BUY) and one
open buy. -/
def ordersAAPL : List Order :=
  [{ id := "o1", symbol := "AAPL", side := "sell" },
   { id := "o2", symbol := "AAPL", side := "sell" },
   { id := "o3", symbol := "AAPL", side := "buy" }]

/-- A gateway where fetching succeeds, cancelling order o1 fails with a
network error, cancelling anything else succeeds, and order placement
succeeds. -/
def gwCancelFlaky : Gateway :=
  { getOpenOrders := Except.ok ordersAAPL
    cancelOrder := fun oid => if oid = "o1" then Except.error "network down" else Except.ok ()
    placeOrder := Except.ok "new-1" }

/-- A gateway whose open-order fetch fails outright. -/
def gwGetFails : Gateway :=
  { getOpenOrders := Except.error "econnrefused"
    cancelOrder := fun _ => Except.ok ()
    placeOrder := Except.ok "new-1" }

/-! ## Shared helper lemmas -/

/-- The best-effort cancellation loop requests a DELETE for every order in
the list, in order, whatever the individual outcomes are. -/
theorem cancelOppositeOrders_eq_map (gw : Gateway) (l : List Order) :
    cancelOppositeOrders gw l =
      l.map (fun o => GwEvent.cancelRequest o.id (cancelOutcomeB gw o.id)) := by
  induction l with
  | nil => rfl
  | cons o rest ih =>
      cases h : gw.cancelOrder o.id <;>
        simp [cancelOppositeOrders, cancelOutcomeB, h, ih]

/-- Comparing a threshold that is at most 1 against a value and against the
value capped at 1 is the same comparison. -/
theorem le_iff_le_min_one (mc c : ℚ) (h : mc ≤ 1) : mc ≤ c ↔ mc ≤ min c 1 :=
  ⟨fun hc => le_min hc h, fun hm => hm.trans (min_le_left _ _)⟩

/-! ## C7 : position sizing -/

/-- Claim C7: recommendedPositionSize(confidence, maxPositionSize) equals
max(1, floor(confidence * maxPositionSize)); it is monotonically
non-decreasing in confidence for fixed maxPositionSize > 0, always returns
an integer at least 1, and recommendedPositionSize(0.9, 5) = 4. -/
theorem getPositionSize_spec (c1 c2 m : ℚ) (hm : 0 < m) (hc : c1 ≤ c2) :
    getPositionSize c1 m ≤ getPositionSize c2 m ∧
    1 ≤ getPositionSize c1 m ∧
    getPositionSize c1 m = max 1 ⌊c1 * m⌋ ∧
    getPositionSize 0.9 5 = 4 := by
  refine ⟨?_, le_max_left _ _, rfl, by decide⟩
  exact max_le_max le_rfl (Int.floor_le_floor (mul_le_mul_of_nonneg_right hc hm.le))

/-- Witness for C7 at confidence values 0.5 and 0.9 with maxPositionSize 5. -/
theorem getPositionSize_spec_witness :
    (0:ℚ) < 5 ∧ (0.5:ℚ) ≤ 0.9 ∧
    (getPositionSize 0.5 5 ≤ getPositionSize 0.9 5 ∧
     1 ≤ getPositionSize 0.5 5 ∧
     getPositionSize 0.5 5 = max 1 ⌊(0.5:ℚ) * 5⌋ ∧
     getPositionSize 0.9 5 = 4) :=
  ⟨by decide, by decide, getPositionSize_spec 0.5 0.9 5 (by decide) (by decide)⟩

/-! ## C8 : updateParameters and JavaScript truthiness -/

/-- Claim C8 (code bug): updateParameters is claimed to merge every provided
field, but the source guards each merge with a JavaScript truthiness test
`if (params.minConfidence)`, so the valid provided value 0 (the route
validator accepts minConfidence in 0..1) is silently ignored: on the
default trader the field stays 0.7 instead of becoming 0. -/
theorem updateParameters_zero_minConfidence_ignored :
    (updateParameters automatedTraderDefault
        ⟨none, none, some 0⟩).minConfidence = 0.7 ∧ (0.7:ℚ) ≠ 0 := by
  exact ⟨by decide, by decide⟩

/-! ## C10 : start arms an unclamped timer -/

/-- Claim C10 counterexample: starting the stopped default trader with
intervalMinutes = 2000 (outside 1..1440) arms a timer whose period is
2000 * 60 * 1000 ms, not the claimed clamped period
clamp(2000) * 60 * 1000 = 1440 * 60 * 1000 ms. -/
theorem startTrading_unclamped_cex :
    (startTrading automatedTraderDefault timerSystemInit none 2000).2.1.armed =
      [(0, (2000:ℚ) * 60 * 1000)] ∧
    (2000:ℚ) * 60 * 1000 ≠ (min (max (2000:ℚ) 1) 1440) * 60 * 1000 := by
  exact ⟨by decide, by decide⟩

/-- Claim C10 as amended: for every intervalMinutes, start (when the loop is
stopped) transitions to Running, performs the evaluation cycle first and then
arms a recurring timer whose period is exactly intervalMinutes * 60 * 1000
milliseconds, with no clamping; range enforcement happens only in the HTTP
route, whose validator accepts exactly the integers in 1..1440 and rejects
the request (no start, no clamp) otherwise. -/
theorem startTrading_immediate_cycle_exact_period (t : AutomatedTrader)
    (ts : TimerSystem) (symbols : Option (List String)) (m : ℚ) (k : ℤ)
    (h : t.isRunning = false) :
    (startTrading t ts symbols m).1.isRunning = true ∧
    (startTrading t ts symbols m).2.1.armed = (ts.next, m * 60 * 1000) :: ts.armed ∧
    (startTrading t ts symbols m).2.2 =
      [StartEvent.runCycle, StartEvent.armTimer (m * 60 * 1000)] ∧
    (startIntervalValid k = true ↔ 1 ≤ k ∧ k ≤ 1440) := by
  cases symbols <;>
    simp [startTrading, h, startIntervalValid, Bool.and_eq_true, decide_eq_true_iff]

/-- Witness for C10's amended theorem at the default stopped trader,
interval 10 minutes, and the validator at 10. -/
theorem startTrading_immediate_cycle_exact_period_witness :
    automatedTraderDefault.isRunning = false ∧
    ((startTrading automatedTraderDefault timerSystemInit none 10).1.isRunning = true ∧
     (startTrading automatedTraderDefault timerSystemInit none 10).2.1.armed =
       (timerSystemInit.next, (10:ℚ) * 60 * 1000) :: timerSystemInit.armed ∧
     (startTrading automatedTraderDefault timerSystemInit none 10).2.2 =
       [StartEvent.runCycle, StartEvent.armTimer ((10:ℚ) * 60 * 1000)] ∧
     (startIntervalValid 10 = true ↔ 1 ≤ (10:ℤ) ∧ (10:ℤ) ≤ 1440)) :=
  ⟨rfl, startTrading_immediate_cycle_exact_period automatedTraderDefault
    timerSystemInit none 10 10 rfl⟩

/-! ## C2 : the worked scenario and the confidence formula -/

/-- Claim C2 counterexample: on the spec's example indicators (rsi 25,
sma20 110, sma50 100, currentPrice 112) with the default thresholds, the
generated confidence is 0.95, not the claimed sum
0.6 + (30-25)/30 * 0.3 + 0.1 + 0.1 = 0.85 and not the claimed 0.8667: the
price-above-SMA20 bonus is added twice (inside calculateBuyConfidence and
again in generateRSISignal). -/
theorem generateRSISignal_scenario_cex :
    (generateRSISignal signalGeneratorDefault "AAPL" indScenario 0).confidence = 0.95 ∧
    (0.95:ℚ) ≠ 0.6 + ((30:ℚ) - 25) / 30 * 0.3 + 0.1 + 0.1 ∧
    (0.95:ℚ) ≠ 0.8667 := by
  exact ⟨by decide, by decide, by decide⟩

/-- Claim C2 as amended: whenever rsi is below the oversold threshold the
signal is BUY and the resulting confidence is calculateBuyConfidence (base
0.6 + rsiStrength * 0.3 + two 0.1 alignment bonuses, capped at 1) with the
price-above-SMA20 bonus of 0.1 then added a second time before the final cap
at 1; shouldExecute compares that raw doubly-boosted sum (uncapped) against
the generator's minConfidence.  On the worked example this gives confidence
0.95, and shouldExecute = true whenever minConfidence is at most 0.95. -/
theorem generateRSISignal_buy_confidence_formula (g : SignalGenerator)
    (symbol : String) (ind : Indicators) (ts3 : ℕ)
    (hbuy : ind.rsi < g.rsiOversold) :
    (generateRSISignal g symbol ind ts3).signal = TradeAction.BUY ∧
    (generateRSISignal g symbol ind ts3).confidence =
      min (calculateBuyConfidence g ind
        + (if ind.currentPrice > ind.sma20 then 0.1 else 0)) 1.0 ∧
    (generateRSISignal g symbol ind ts3).shouldExecute =
      decide (calculateBuyConfidence g ind
        + (if ind.currentPrice > ind.sma20 then 0.1 else 0) ≥ g.minConfidence) := by
  have hb : baseSignalConf g symbol ind ts3 =
      (TradeAction.BUY, calculateBuyConfidence g ind) := by
    unfold baseSignalConf
    rw [if_pos hbuy]
  refine ⟨by simp [generateRSISignal, hb], ?_, ?_⟩ <;>
    · simp only [generateRSISignal, rawAdjConf, hb]
      split_ifs <;> simp_all

/-- Witness for C2's amended theorem at the worked example: rsi 25 < 30,
and the conclusion evaluated there. -/
theorem generateRSISignal_buy_confidence_formula_witness :
    indScenario.rsi < signalGeneratorDefault.rsiOversold ∧
    ((generateRSISignal signalGeneratorDefault "AAPL" indScenario 0).signal =
        TradeAction.BUY ∧
     (generateRSISignal signalGeneratorDefault "AAPL" indScenario 0).confidence =
       min (calculateBuyConfidence signalGeneratorDefault indScenario
         + (if indScenario.currentPrice > indScenario.sma20 then 0.1 else 0)) 1.0 ∧
     (generateRSISignal signalGeneratorDefault "AAPL" indScenario 0).shouldExecute =
       decide (calculateBuyConfidence signalGeneratorDefault indScenario
         + (if indScenario.currentPrice > indScenario.sma20 then 0.1 else 0) ≥
           signalGeneratorDefault.minConfidence)) :=
  ⟨by decide, generateRSISignal_buy_confidence_formula signalGeneratorDefault
    "AAPL" indScenario 0 (by decide)⟩

/-! ## C4 : shouldExecute versus the loop's filter -/

/-- Claim C4 counterexample: a generated signal (rsi 29 under the default
generator, confidence 0.61) has shouldExecute = true (0.61 is at least the
generator's minConfidence 0.6) and is not HOLD, yet the loop filter with the
default trader rejects it because the trader's own minConfidence is 0.7: the
filter's second conjunct does exclude a signal the first conjunct admits. -/
theorem executableFilter_not_redundant_cex :
    (generateRSISignal signalGeneratorDefault "AAPL" indLowBuy 0).shouldExecute = true ∧
    (generateRSISignal signalGeneratorDefault "AAPL" indLowBuy 0).signal ≠
      TradeAction.HOLD ∧
    ¬ automatedTraderDefault.minConfidence ≤
        (generateRSISignal signalGeneratorDefault "AAPL" indLowBuy 0).confidence ∧
    executableFilter automatedTraderDefault
        (generateRSISignal signalGeneratorDefault "AAPL" indLowBuy 0) = false := by
  exact ⟨by decide, by decide, by decide, by decide⟩

/-- Claim C4 as amended: a generated signal has shouldExecute = true iff its
confidence is at least the generator's minConfidence (for minConfidence at
most 1); but the loop's filter compares against the trader's own
minConfidence, a distinct parameter (defaults 0.7 versus 0.6), so the
filter's second conjunct is implied by the first only when the trader's
minConfidence is at most the generator's. -/
theorem shouldExecute_iff_confidence (g : SignalGenerator) (symbol : String)
    (ind : Indicators) (ts3 : ℕ) (t : AutomatedTrader)
    (hg : g.minConfidence ≤ 1) :
    ((generateRSISignal g symbol ind ts3).shouldExecute = true ↔
      g.minConfidence ≤ (generateRSISignal g symbol ind ts3).confidence) ∧
    (t.minConfidence ≤ g.minConfidence →
      (generateRSISignal g symbol ind ts3).shouldExecute = true →
      t.minConfidence ≤ (generateRSISignal g symbol ind ts3).confidence) := by
  have h1 : (generateRSISignal g symbol ind ts3).shouldExecute = true ↔
      g.minConfidence ≤ (generateRSISignal g symbol ind ts3).confidence := by
    show decide (rawAdjConf g symbol ind ts3 ≥ g.minConfidence) = true ↔
      g.minConfidence ≤ min (rawAdjConf g symbol ind ts3) 1.0
    rw [decide_eq_true_iff]
    exact le_iff_le_min_one g.minConfidence (rawAdjConf g symbol ind ts3) hg
  exact ⟨h1, fun hts hse => le_trans hts (h1.mp hse)⟩

/-- Witness for C4's amended theorem at the worked example with the default
generator and a trader whose minConfidence equals the generator's. -/
theorem shouldExecute_iff_confidence_witness :
    signalGeneratorDefault.minConfidence ≤ 1 ∧
    (((generateRSISignal signalGeneratorDefault "AAPL" indScenario 1).shouldExecute = true ↔
       signalGeneratorDefault.minConfidence ≤
         (generateRSISignal signalGeneratorDefault "AAPL" indScenario 1).confidence) ∧
     (automatedTraderDefault.minConfidence ≤ signalGeneratorDefault.minConfidence →
       (generateRSISignal signalGeneratorDefault "AAPL" indScenario 1).shouldExecute = true →
       automatedTraderDefault.minConfidence ≤
         (generateRSISignal signalGeneratorDefault "AAPL" indScenario 1).confidence)) :=
  ⟨by decide, shouldExecute_iff_confidence signalGeneratorDefault "AAPL"
    indScenario 1 automatedTraderDefault (by decide)⟩

/-! ## C5 : the indicator source is only partially deterministic -/

/-- Claim C5 counterexample: two evaluations of the indicator source for the
same symbol in the same time bucket, differing only in the Math.random()
draw used for sma20 (1 versus 0), return different Indicators records.  The
instantiation msinZero of the abstract sine is irrelevant: the sine noise
terms have the same seed in both calls and cancel, the sma20 offset differs
by (1 - 0) * 10. -/
theorem generateMockIndicators_same_bucket_cex :
    generateMockIndicators msinZero 0 "AAPL" 1 0 ≠
      generateMockIndicators msinZero 0 "AAPL" 0 0 := by
  decide

/-- Claim C5 as amended: for a fixed symbol and time bucket the rsi and
currentPrice fields are deterministic (identical across evaluations for
every sine function and any random draws), but sma20 incorporates a fresh
Math.random() draw on every call, so evaluations whose first draws differ
return different sma20 values (and likewise sma50 with the second draw). -/
theorem generateMockIndicators_bucket_determinism (msin : ℚ → ℚ) (tb : ℕ)
    (symbol : String) (r1 r2 r1' r2' : ℚ) (hr : r1 ≠ r1') :
    ((generateMockIndicators msin tb symbol r1 r2).rsi =
        (generateMockIndicators msin tb symbol r1' r2').rsi ∧
      (generateMockIndicators msin tb symbol r1 r2).currentPrice =
        (generateMockIndicators msin tb symbol r1' r2').currentPrice) ∧
    (generateMockIndicators msin tb symbol r1 r2).sma20 ≠
      (generateMockIndicators msin tb symbol r1' r2').sma20 := by
  refine ⟨⟨rfl, rfl⟩, ?_⟩
  simp only [generateMockIndicators]
  intro h
  exact hr (by linarith)

/-- Witness for C5's amended theorem at symbol AAPL, bucket 0, first draws
1 versus 0. -/
theorem generateMockIndicators_bucket_determinism_witness :
    (1:ℚ) ≠ 0 ∧
    (((generateMockIndicators msinZero 0 "AAPL" 1 0).rsi =
        (generateMockIndicators msinZero 0 "AAPL" 0 0).rsi ∧
      (generateMockIndicators msinZero 0 "AAPL" 1 0).currentPrice =
        (generateMockIndicators msinZero 0 "AAPL" 0 0).currentPrice) ∧
     (generateMockIndicators msinZero 0 "AAPL" 1 0).sma20 ≠
       (generateMockIndicators msinZero 0 "AAPL" 0 0).sma20) :=
  ⟨by decide, generateMockIndicators_bucket_determinism msinZero 0 "AAPL"
    1 0 0 0 (by decide)⟩

/-! ## C9 : executeTrade always returns a structured result -/

/-- Claim C9 counterexample: when the open-order fetch fails, the returned
failure record is success: false, error, signal -- the object literal on
automatedTrader.js lines 165-169 has no positionSize key, so the claimed
shape success, orderId or error, signal, positionSize does not hold on the
failure path. -/
theorem executeTrade_failure_lacks_positionSize_cex :
    tradeResultHasPositionSize
      (executeTradeFromSignal gwGetFails automatedTraderDefault sigBuyAAPL).1 = false := rfl

/-- Claim C9 as amended: executeTrade never throws; for every gateway
outcome it returns either a success record carrying the gateway's order id
together with the signal and the computed position size (exactly when both
the open-order fetch and the submission succeed), or a failure record
carrying the error message of the step that failed together with the signal
(and no positionSize field). -/
theorem executeTrade_total_result_shape (gw : Gateway) (t : AutomatedTrader)
    (sig : SignalResult) :
    (∃ existing orderId, gw.getOpenOrders = Except.ok existing ∧
      gw.placeOrder = Except.ok orderId ∧
      (executeTradeFromSignal gw t sig).1 =
        TradeResult.success orderId sig (getPositionSize sig.confidence t.maxPositionSize)) ∨
    (∃ e, (executeTradeFromSignal gw t sig).1 = TradeResult.failure e sig ∧
      (gw.getOpenOrders = Except.error e ∨ gw.placeOrder = Except.error e)) := by
  unfold executeTradeFromSignal
  cases hg : gw.getOpenOrders with
  | error m => exact Or.inr ⟨m, by simp, Or.inl rfl⟩
  | ok existing =>
      cases hp : gw.placeOrder with
      | ok oid => exact Or.inl ⟨existing, oid, rfl, rfl, by simp⟩
      | error m => exact Or.inr ⟨m, by simp, Or.inr rfl⟩

/-! ## C1 : opposing orders are cancelled before the new order is submitted -/

/-- Claim C1: whenever the open-order fetch succeeds, the brokerage
interaction trace of executeTrade is exactly: the fetch, then one DELETE
request for every opposite-side open order of the symbol in list order
(present regardless of individual cancel failures -- the outcome Bool
records them without shortening the pass), then the fixed settle delay
(when there was anything to cancel), and only then the submission of the
new order.  In particular every opposing order's cancellation request
precedes the submit, and the trace does not depend on the cancel
outcomes. -/
theorem executeTrade_cancels_opposing_before_submit (gw : Gateway)
    (t : AutomatedTrader) (sig : SignalResult) (existing : List Order)
    (hget : gw.getOpenOrders = Except.ok existing) :
    (executeTradeFromSignal gw t sig).2 =
      GwEvent.getOrders sig.symbol ::
        (existing.filter (fun o => o.side != sideOf sig.signal)).map
          (fun o => GwEvent.cancelRequest o.id (cancelOutcomeB gw o.id))
        ++ (if (existing.filter (fun o => o.side != sideOf sig.signal)).length > 0
            then [GwEvent.settleDelay] else [])
        ++ [GwEvent.submitOrder sig.symbol (sideOf sig.signal)
              (getPositionSize sig.confidence t.maxPositionSize)] := by
  unfold executeTradeFromSignal
  rw [hget]
  cases hp : gw.placeOrder <;> simp [cancelOppositeOrders_eq_map]

/-- Witness for C1 on a gateway holding two opposing sells (one of whose
cancels fails) and one same-side buy, executing the worked-example BUY. -/
theorem executeTrade_cancels_opposing_before_submit_witness :
    gwCancelFlaky.getOpenOrders = Except.ok ordersAAPL ∧
    (executeTradeFromSignal gwCancelFlaky automatedTraderDefault sigBuyAAPL).2 =
      GwEvent.getOrders sigBuyAAPL.symbol ::
        (ordersAAPL.filter (fun o => o.side != sideOf sigBuyAAPL.signal)).map
          (fun o => GwEvent.cancelRequest o.id (cancelOutcomeB gwCancelFlaky o.id))
        ++ (if (ordersAAPL.filter (fun o => o.side != sideOf sigBuyAAPL.signal)).length > 0
            then [GwEvent.settleDelay] else [])
        ++ [GwEvent.submitOrder sigBuyAAPL.symbol (sideOf sigBuyAAPL.signal)
              (getPositionSize sigBuyAAPL.confidence automatedTraderDefault.maxPositionSize)] :=
  ⟨rfl, executeTrade_cancels_opposing_before_submit gwCancelFlaky
    automatedTraderDefault sigBuyAAPL ordersAAPL rfl⟩

/-! ## C6 : at most one armed timer, start is idempotent -/

/-- A timer list whose projection to handles is a singleton is a singleton. -/
theorem armed_singleton_of_map_eq (ts : TimerSystem) (h : ℕ)
    (hmap : ts.armed.map Prod.fst = [h]) : ∃ p, ts.armed = [(h, p)] := by
  cases harm : ts.armed with
  | nil => rw [harm] at hmap; cases hmap
  | cons a l =>
      rw [harm] at hmap
      simp only [List.map_cons, List.cons.injEq, List.map_eq_nil_iff] at hmap
      obtain ⟨ha, hl⟩ := hmap
      refine ⟨a.2, ?_⟩
      rw [hl, ← ha, Prod.mk.eta]

/-- Claim C6: start while running is a complete no-op (warning only, all
state including the armed timer untouched), so two starts without a stop
leave exactly one armed timer; and both start and stop preserve the
invariant that a timer handle is held exactly while the loop is running and
is the process's single armed timer (in particular a held handle implies
Running). -/
theorem startTrading_single_timer (t : AutomatedTrader) (ts : TimerSystem)
    (syms syms' : Option (List String)) (m m' : ℚ) (hdl : ℕ)
    (hInv : TimerInv t ts) :
    (t.isRunning = true →
      startTrading t ts syms m = (t, ts, [StartEvent.warnAlreadyRunning])) ∧
    (startTrading (startTrading t ts syms m).1
        (startTrading t ts syms m).2.1 syms' m').2.1.armed.length = 1 ∧
    TimerInv (startTrading t ts syms m).1 (startTrading t ts syms m).2.1 ∧
    TimerInv (stopTrading t ts).1 (stopTrading t ts).2 ∧
    (t.tradingInterval = some hdl → t.isRunning = true) := by
  cases hti : t.tradingInterval with
  | none =>
      simp only [TimerInv, hti] at hInv
      obtain ⟨hrun, harmed⟩ := hInv
      cases syms <;> cases syms' <;>
        simp [startTrading, stopTrading, TimerInv, hti, hrun, harmed]
  | some h =>
      simp only [TimerInv, hti] at hInv
      obtain ⟨hrun, hmap⟩ := hInv
      obtain ⟨p, harm⟩ := armed_singleton_of_map_eq ts h hmap
      have hstart : ∀ (s : Option (List String)) (q : ℚ),
          startTrading t ts s q = (t, ts, [StartEvent.warnAlreadyRunning]) := by
        intro s q
        simp [startTrading, hrun]
      refine ⟨fun _ => hstart syms m, ?_, ?_, ?_, fun _ => hrun⟩
      · rw [hstart syms m]
        show (startTrading t ts syms' m').2.1.armed.length = 1
        rw [hstart syms' m', harm]
        rfl
      · rw [hstart syms m]
        show TimerInv t ts
        simp only [TimerInv, hti]
        exact ⟨hrun, hmap⟩
      · simp only [stopTrading, hrun, if_true, hti]
        simp only [TimerInv, harm]
        simp

/-! ## C3 : confidence always lies in the unit interval -/

/-- On the RSI-oversold BUY branch the buy confidence is non-negative. -/
theorem calculateBuyConfidence_nonneg (g : SignalGenerator) (ind : Indicators)
    (h1 : 0 ≤ g.rsiOversold) (hb : ind.rsi < g.rsiOversold) :
    0 ≤ calculateBuyConfidence g ind := by
  simp only [calculateBuyConfidence]
  have hrs : 0 ≤ (g.rsiOversold - ind.rsi) / g.rsiOversold :=
    div_nonneg (by linarith) h1
  refine le_min ?_ (by norm_num)
  split_ifs <;> linarith

/-- On the RSI-overbought SELL branch the sell confidence is non-negative. -/
theorem calculateSellConfidence_nonneg (g : SignalGenerator) (ind : Indicators)
    (h3 : g.rsiOverbought ≤ 100) (hs : g.rsiOverbought < ind.rsi) :
    0 ≤ calculateSellConfidence g ind := by
  simp only [calculateSellConfidence]
  have hrs : 0 ≤ (ind.rsi - g.rsiOverbought) / (100 - g.rsiOverbought) :=
    div_nonneg (by linarith) (by linarith)
  refine le_min ?_ (by norm_num)
  split_ifs <;> linarith

/-- Every branch of the base signal computation yields a non-negative
confidence under a valid threshold configuration. -/
theorem baseSignalConf_snd_nonneg (g : SignalGenerator) (symbol : String)
    (ind : Indicators) (ts3 : ℕ) (h1 : 0 ≤ g.rsiOversold)
    (h3 : g.rsiOverbought ≤ 100) :
    0 ≤ (baseSignalConf g symbol ind ts3).2 := by
  simp only [baseSignalConf]
  split_ifs with hb hs hm hf1 hf2
  · exact calculateBuyConfidence_nonneg g ind h1 (by linarith)
  · exact calculateSellConfidence_nonneg g ind h3 (by linarith)
  · have hrf : (0:ℚ) ≤ (((ts3 + symbolHash symbol) % 100 : ℕ) : ℚ) / 100 := by
      positivity
    show (0:ℚ) ≤ 0.5 + (((ts3 + symbolHash symbol) % 100 : ℕ) : ℚ) / 100 * 0.3
    linarith
  · have hrf : (0.125:ℚ) ≤ (((ts3 + symbolHash symbol) % 100 : ℕ) : ℚ) / 100 :=
      not_lt.mp hf2
    show (0:ℚ) ≤ 0.5 + ((((ts3 + symbolHash symbol) % 100 : ℕ) : ℚ) / 100 - 0.125) * 2.4
    linarith
  · exact le_refl 0
  · exact le_refl 0

/-- The moving-average adjustment keeps the raw confidence non-negative. -/
theorem rawAdjConf_nonneg (g : SignalGenerator) (symbol : String)
    (ind : Indicators) (ts3 : ℕ) (h1 : 0 ≤ g.rsiOversold)
    (h3 : g.rsiOverbought ≤ 100) :
    0 ≤ rawAdjConf g symbol ind ts3 := by
  have hb := baseSignalConf_snd_nonneg g symbol ind ts3 h1 h3
  simp only [rawAdjConf]
  split_ifs <;> linarith

/-- Claim C3: for every symbol, all indicator values and every valid
threshold configuration (0 <= rsiOversold < rsiOverbought <= 100,
minConfidence in the unit interval), the confidence of the generated
signal lies in the unit interval. -/
theorem generateRSISignal_confidence_in_unit (g : SignalGenerator)
    (symbol : String) (ind : Indicators) (ts3 : ℕ)
    (h1 : 0 ≤ g.rsiOversold) (h2 : g.rsiOversold < g.rsiOverbought)
    (h3 : g.rsiOverbought ≤ 100) (h4 : 0 ≤ g.minConfidence)
    (h5 : g.minConfidence ≤ 1) :
    0 ≤ (generateRSISignal g symbol ind ts3).confidence ∧
    (generateRSISignal g symbol ind ts3).confidence ≤ 1 := by
  constructor
  · exact le_min (rawAdjConf_nonneg g symbol ind ts3 h1 h3) (by norm_num)
  · exact (min_le_right _ _).trans (by norm_num)

/-- Witness for C3 at the default thresholds, symbol MSFT and the worked
example's indicator values. -/
theorem generateRSISignal_confidence_in_unit_witness :
    ((0:ℚ) ≤ signalGeneratorDefault.rsiOversold ∧
     signalGeneratorDefault.rsiOversold < signalGeneratorDefault.rsiOverbought ∧
     signalGeneratorDefault.rsiOverbought ≤ 100 ∧
     (0:ℚ) ≤ signalGeneratorDefault.minConfidence ∧
     signalGeneratorDefault.minConfidence ≤ 1) ∧
    (0 ≤ (generateRSISignal signalGeneratorDefault "MSFT" indScenario 2).confidence ∧
     (generateRSISignal signalGeneratorDefault "MSFT" indScenario 2).confidence ≤ 1) :=
  ⟨⟨by decide, by decide, by decide, by decide, by decide⟩,
   generateRSISignal_confidence_in_unit signalGeneratorDefault "MSFT" indScenario 2
     (by decide) (by decide) (by decide) (by decide) (by decide)⟩

/-- Witness for C6 from the initial process state (stopped, no timer),
starting twice with intervals 10 and 15 minutes. -/
theorem startTrading_single_timer_witness :
    TimerInv automatedTraderDefault timerSystemInit ∧
    ((automatedTraderDefault.isRunning = true →
       startTrading automatedTraderDefault timerSystemInit none 10 =
         (automatedTraderDefault, timerSystemInit, [StartEvent.warnAlreadyRunning])) ∧
     (startTrading (startTrading automatedTraderDefault timerSystemInit none 10).1
        (startTrading automatedTraderDefault timerSystemInit none 10).2.1
        none 15).2.1.armed.length = 1 ∧
     TimerInv (startTrading automatedTraderDefault timerSystemInit none 10).1
       (startTrading automatedTraderDefault timerSystemInit none 10).2.1 ∧
     TimerInv (stopTrading automatedTraderDefault timerSystemInit).1
       (stopTrading automatedTraderDefault timerSystemInit).2 ∧
     (automatedTraderDefault.tradingInterval = some 0 →
       automatedTraderDefault.isRunning = true)) :=
  ⟨⟨rfl, rfl⟩, startTrading_single_timer automatedTraderDefault timerSystemInit
    none none 10 15 0 ⟨rfl, rfl⟩⟩
